import Mathlib

/-!
Shallow embedding of `pkg/clients/aws/client.go` from the csp-adapter
repository, together with proofs of its behavioural properties.

Modelling conventions:
* Remote AWS calls (license-manager, STS) are modelled as oracle
  functions passed in as parameters; `Except String` models the Go
  `(value, error)` convention of the SDK calls (exactly one of the two
  is set).
* Go functions returning `(ptr, error)` pairs are modelled as
  `Option Result × Option String` so that nil-pointer results remain
  observable.
* A Go nil-pointer dereference (panic) is modelled by an outer
  `Option`: a result of `none` means the code panics on that input.
* Functions that issue requests additionally return the list of request
  values they sent, so that claims about the requests issued can be
  stated.
* Go `int`/`int64` are modelled as `Int`; `strconv.Atoi` is modelled
  with its sign handling and its 64-bit range check.
-/

/-- Mirror of `types.IssuerDetails` (only the field the code reads). -/
structure IssuerDetails where
  keyFingerprint : Option String
deriving DecidableEq

/-- Mirror of `types.Entitlement` (fields the code reads): `Name *string`, `MaxCount *int64`. -/
structure Entitlement where
  name : Option String
  maxCount : Option Int
deriving DecidableEq

/-- Mirror of `types.GrantedLicense` (fields the code reads). -/
structure GrantedLicense where
  licenseArn : Option String
  productSKU : Option String
  issuer : Option IssuerDetails
  entitlements : List Entitlement
deriving DecidableEq

/-- Mirror of `types.Filter`: `Name *string`, `Values []string`. Named
`LMFilter` here because `Filter` collides with the Mathlib name. -/
structure LMFilter where
  name : Option String
  values : List String
deriving DecidableEq

/-- Mirror of `lm.ListReceivedLicensesInput` (fields the code sets). -/
structure ListReceivedLicensesInput where
  filters : List LMFilter
  maxResults : Option Int
deriving DecidableEq

/-- Mirror of `lm.ListReceivedLicensesOutput` (field the code reads). -/
structure ListReceivedLicensesOutput where
  licenses : List GrantedLicense
deriving DecidableEq

/-- Mirror of `types.CheckoutType`; the code only uses `types.CheckoutTypeProvisional`. -/
inductive CheckoutType where
  | provisional
  | perpetual
deriving DecidableEq

/-- Mirror of `types.EntitlementData`: `Name *string`, `Unit EntitlementDataUnit`, `Value *string`. -/
structure EntitlementData where
  name : Option String
  unit : String
  value : Option String
deriving DecidableEq

/-- Mirror of `lm.CheckoutLicenseInput` (fields the code sets). -/
structure CheckoutLicenseInput where
  checkoutType : CheckoutType
  clientToken : Option String
  productSKU : Option String
  keyFingerprint : Option String
  entitlements : List EntitlementData
deriving DecidableEq

/-- Mirror of `lm.CheckoutLicenseOutput` (opaque to the code; returned unmodified). -/
structure CheckoutLicenseOutput where
  licenseConsumptionToken : Option String
deriving DecidableEq

/-- Mirror of `lm.CheckInLicenseInput`. -/
structure CheckInLicenseInput where
  licenseConsumptionToken : Option String
deriving DecidableEq

/-- Mirror of `lm.CheckInLicenseOutput` (opaque to the code). -/
structure CheckInLicenseOutput where
  resultTag : Option String
deriving DecidableEq

/-- Mirror of `lm.ExtendLicenseConsumptionInput`. -/
structure ExtendLicenseConsumptionInput where
  licenseConsumptionToken : Option String
deriving DecidableEq

/-- Mirror of `lm.ExtendLicenseConsumptionOutput` (opaque to the code). -/
structure ExtendLicenseConsumptionOutput where
  expiration : Option String
  licenseConsumptionToken : Option String
deriving DecidableEq

/-- Mirror of `lm.GetLicenseUsageInput`. -/
structure GetLicenseUsageInput where
  licenseArn : Option String
deriving DecidableEq

/-- Mirror of `types.EntitlementUsage`: `Name *string`, `ConsumedValue *string`. -/
structure EntitlementUsage where
  name : Option String
  consumedValue : Option String
deriving DecidableEq

/-- Mirror of `types.LicenseUsage` (field the code reads). -/
structure LicenseUsage where
  entitlementUsages : List EntitlementUsage
deriving DecidableEq

/-- Mirror of `lm.GetLicenseUsageOutput`: `LicenseUsage *types.LicenseUsage`. -/
structure GetLicenseUsageOutput where
  licenseUsage : Option LicenseUsage
deriving DecidableEq

/-- Mirror of `sts.GetCallerIdentityOutput` (field the code reads): `Account *string`. -/
structure GetCallerIdentityOutput where
  account : Option String
deriving DecidableEq

/-- Mirror of the package-level variable `productSKUField`. -/
def productSKUField : String := "ProductSKU"

/-- Mirror of the package-level variable `rancherProductSKUNonEmea`. -/
def rancherProductSKUNonEmea : String := "0b87d4fa-d1fe-41d8-830b-67d4ec381549"

/-- Mirror of the package-level variable `rancherProductSKUEmea`. -/
def rancherProductSKUEmea : String := "a303097d-1dc2-4548-8ea6-f46bb9842e21"

/-- Mirror of the package-level variable `maxResults int32 = 1`. -/
def maxResults : Int := 1

/-- Mirror of the package-level variable `entitlementDimension`. -/
def entitlementDimension : String := "RKE_NODE_SUPP"

/-- Mirror of the package-level constant `entitlementUnit`. -/
def entitlementUnit : String := "Count"

/-- Request value built by `getLicenseForProductID` (client.go lines
116-124): one filter on the product-SKU field with the queried SKU as
its only value, capped to `maxResults` results. -/
def listInputFor (productID : String) : ListReceivedLicensesInput :=
  { filters := [{ name := some productSKUField, values := [productID] }]
    maxResults := some maxResults }

/-- Embedding of `getLicenseForProductID` (client.go lines 114-142).
The oracle `lmList` stands for `c.lm.ListReceivedLicenses`; the second
component of the result is the list of requests issued. -/
def getLicenseForProductID
    (lmList : ListReceivedLicensesInput → Except String ListReceivedLicensesOutput)
    (productID : String) :
    (Option GrantedLicense × Option String) × List ListReceivedLicensesInput :=
  let input : ListReceivedLicensesInput := listInputFor productID
  match lmList input with
  | Except.error e => ((none, some e), [input])
  | Except.ok res =>
    match res.licenses with
    | [] => ((none, some ("unable to find license for product id " ++ productID)), [input])
    | l :: _ =>
      match l.productSKU with
      | none => ((some { l with productSKU := some productID }, none), [input])
      | some _ => ((some l, none), [input])

/-- Embedding of `GetRancherLicense` (client.go lines 101-112): non-EMEA
lookup first, EMEA lookup on any error, combined error when both fail. -/
def getRancherLicense
    (lmList : ListReceivedLicensesInput → Except String ListReceivedLicensesOutput) :
    (Option GrantedLicense × Option String) × List ListReceivedLicensesInput :=
  let r1 := getLicenseForProductID lmList rancherProductSKUNonEmea
  match r1.1.2 with
  | none => (r1.1, r1.2)
  | some err =>
    let r2 := getLicenseForProductID lmList rancherProductSKUEmea
    match r2.1.2 with
    | none => (r2.1, r1.2 ++ r2.2)
    | some newErr =>
      ((none, some ("unable to get license for non-emea: " ++ err ++
          ", unable to get license for emea: " ++ newErr)), r1.2 ++ r2.2)

/-- Embedding of `CheckoutRancherLicense` (client.go lines 152-180). The
fresh `uuid.New().String()` produced for the call is modelled by the
parameter `freshToken`; `lmCheckout` stands for `c.lm.CheckoutLicense`.
The second component is the list of checkout requests issued. -/
def checkoutRancherLicense
    (lmCheckout : CheckoutLicenseInput → Except String CheckoutLicenseOutput)
    (l : GrantedLicense) (entitlementAmt : Int) (freshToken : String) :
    (Option CheckoutLicenseOutput × Option String) × List CheckoutLicenseInput :=
  match l.issuer with
  | none =>
    match l.licenseArn with
    | none => ((none, some "license is missing arn and KeyFingerprint/Issuer"), [])
    | some arn =>
      ((none, some ("license " ++ arn ++ " must have a KeyFingerprint for checkout")), [])
  | some issuer =>
    match issuer.keyFingerprint with
    | none =>
      match l.licenseArn with
      | none => ((none, some "license is missing arn and KeyFingerprint/Issuer"), [])
      | some arn =>
        ((none, some ("license " ++ arn ++ " must have a KeyFingerprint for checkout")), [])
    | some fp =>
      let entitlementStr := toString entitlementAmt
      let input : CheckoutLicenseInput :=
        { checkoutType := CheckoutType.provisional
          clientToken := some freshToken
          productSKU := l.productSKU
          keyFingerprint := some fp
          entitlements :=
            [{ name := some entitlementDimension
               unit := entitlementUnit
               value := some entitlementStr }] }
      match lmCheckout input with
      | Except.error e => ((none, some e), [input])
      | Except.ok res => ((some res, none), [input])

/-- Embedding of `CheckInRancherLicense` (client.go lines 182-188). -/
def checkInRancherLicense
    (lmCheckIn : CheckInLicenseInput → Except String CheckInLicenseOutput)
    (consumptionToken : String) : Option CheckInLicenseOutput × Option String :=
  match lmCheckIn { licenseConsumptionToken := some consumptionToken } with
  | Except.error e => (none, some e)
  | Except.ok res => (some res, none)

/-- Embedding of `ExtendRancherLicenseConsumptionToken` (client.go lines 190-196). -/
def extendRancherLicenseConsumptionToken
    (lmExtend : ExtendLicenseConsumptionInput → Except String ExtendLicenseConsumptionOutput)
    (consumptionToken : String) : Option ExtendLicenseConsumptionOutput × Option String :=
  match lmExtend { licenseConsumptionToken := some consumptionToken } with
  | Except.error e => (none, some e)
  | Except.ok res => (some res, none)

/-- Value of a digit list read in base 10, used by `goAtoi`. -/
def digitsToNat (l : List Char) : Nat :=
  l.foldl (fun acc c => acc * 10 + (c.toNat - 48)) 0

/-- Embedding of `strconv.Atoi`: optional sign, decimal digits, 64-bit
signed range check; any other input is a syntax error. -/
def goAtoi (s : String) : Except String Int :=
  let signed : Int × List Char :=
    match s.data with
    | '+' :: rest => (1, rest)
    | '-' :: rest => (-1, rest)
    | l => (1, l)
  if signed.2 = [] then
    Except.error ("strconv.Atoi: parsing " ++ s ++ ": invalid syntax")
  else if signed.2.all Char.isDigit then
    let v : Int := signed.1 * (digitsToNat signed.2 : Int)
    if v < -(2 ^ 63) ∨ 2 ^ 63 - 1 < v then
      Except.error ("strconv.Atoi: parsing " ++ s ++ ": value out of range")
    else Except.ok v
  else Except.error ("strconv.Atoi: parsing " ++ s ++ ": invalid syntax")

/-- Embedding of the entitlement scan of `getMaxRKEEntitlements`
(client.go lines 223-229). A result of `none` is a nil-pointer panic:
the code dereferences `*entitlement.Name`, `*entitlement.MaxCount` and,
in the not-found error message, `*license.LicenseArn` without checks. -/
def findMaxRKE (arn : Option String) : List Entitlement → Option (Except String Int)
  | [] =>
    match arn with
    | none => none
    | some a =>
      some (Except.error ("entitlement " ++ entitlementDimension ++
        " not found on license for " ++ a))
  | e :: rest =>
    match e.name with
    | none => none
    | some n =>
      if n = entitlementDimension then
        match e.maxCount with
        | none => none
        | some m => some (Except.ok m)
      else findMaxRKE arn rest

/-- Embedding of `getMaxRKEEntitlements` (client.go lines 223-229). -/
def getMaxRKEEntitlements (license : GrantedLicense) : Option (Except String Int) :=
  findMaxRKE license.licenseArn license.entitlements

/-- Embedding of the usage-summing loop of `GetNumberOfAvailableEntitlements`
(client.go lines 209-218): records are processed in order; `none` is a
nil-pointer panic on `*usage.Name` or `*usage.ConsumedValue`; an
`Except.error` is the early return on a `strconv.Atoi` failure;
`Except.ok` carries the accumulated total. -/
def sumUsageLoop : List EntitlementUsage → Option (Except String Int)
  | [] => some (Except.ok 0)
  | u :: rest =>
    match u.name with
    | none => none
    | some n =>
      if n = entitlementDimension then
        match u.consumedValue with
        | none => none
        | some s =>
          match goAtoi s with
          | Except.error e => some (Except.error e)
          | Except.ok v => (sumUsageLoop rest).map (fun r => r.map (fun t => v + t))
      else sumUsageLoop rest

/-- Embedding of `GetNumberOfAvailableEntitlements` (client.go lines
198-221). The Go function returns `(int, error)`; here the pair is
wrapped in `Option`, with `none` modelling a nil-pointer panic. -/
def getNumberOfAvailableEntitlements
    (lmUsage : GetLicenseUsageInput → Except String GetLicenseUsageOutput)
    (license : GrantedLicense) : Option (Int × Option String) :=
  match lmUsage { licenseArn := license.licenseArn } with
  | Except.error e => some (0, some e)
  | Except.ok res =>
    match getMaxRKEEntitlements license with
    | none => none
    | some (Except.error e) => some (0, some e)
    | some (Except.ok maxEntitlements) =>
      match res.licenseUsage with
      | none => none
      | some lu =>
        match sumUsageLoop lu.entitlementUsages with
        | none => none
        | some (Except.error e) => some (0, some e)
        | some (Except.ok total) => some (maxEntitlements - total, none)

/-- Embedding of `getAccountNumber` (client.go lines 80-92); the oracle
stands for `c.sts.GetCallerIdentity`. -/
def getAccountNumber
    (stsGetCallerIdentity : Unit → Except String GetCallerIdentityOutput) :
    String × Option String :=
  match stsGetCallerIdentity () with
  | Except.error e => ("", some e)
  | Except.ok out =>
    match out.account with
    | none => ("", some "account number empty in aws sts response")
    | some a =>
      if a.length = 0 then ("", some "account number empty in aws sts response")
      else (a, none)

/-- Mirror of `aws.Config` (only the field the code reads, for logging). -/
structure AWSConfig where
  region : String

/-- Bundle of the license-manager operations used by the client,
mirroring the `licenseManagerClient` interface. -/
structure LMOracle where
  listReceivedLicenses : ListReceivedLicensesInput → Except String ListReceivedLicensesOutput
  checkoutLicense : CheckoutLicenseInput → Except String CheckoutLicenseOutput
  checkInLicense : CheckInLicenseInput → Except String CheckInLicenseOutput
  extendLicenseConsumption : ExtendLicenseConsumptionInput → Except String ExtendLicenseConsumptionOutput
  getLicenseUsage : GetLicenseUsageInput → Except String GetLicenseUsageOutput

/-- Mirror of the `client` struct (client.go lines 44-48). -/
structure ClientState where
  acctNum : String
  sts : Unit → Except String GetCallerIdentityOutput
  lm : LMOracle

/-- Embedding of `NewClient` (client.go lines 50-73): `loadDefaultConfig`
stands for `config.LoadDefaultConfig`, and the two factories stand for
`sts.NewFromConfig` and `lm.NewFromConfig`. -/
def newClient (loadDefaultConfig : Except String AWSConfig)
    (stsNewFromConfig : AWSConfig → (Unit → Except String GetCallerIdentityOutput))
    (lmNewFromConfig : AWSConfig → LMOracle) :
    Option ClientState × Option String :=
  match loadDefaultConfig with
  | Except.error e => (none, some e)
  | Except.ok cfg =>
    let c0 : ClientState :=
      { acctNum := "", sts := stsNewFromConfig cfg, lm := lmNewFromConfig cfg }
    let r := getAccountNumber c0.sts
    match r.2 with
    | some e => (none, some e)
    | none => (some { c0 with acctNum := r.1 }, none)

/-- Embedding of the `AccountNumber` method (client.go lines 75-77). -/
def ClientState.accountNumber (c : ClientState) : String := c.acctNum

/-- Method form of `GetRancherLicense`: the Go method has a pointer
receiver and writes no field, so the state transformer returns the
receiver unchanged. -/
def ClientState.getRancherLicenseM (c : ClientState) :
    ((Option GrantedLicense × Option String) × List ListReceivedLicensesInput) × ClientState :=
  (getRancherLicense c.lm.listReceivedLicenses, c)

/-- Method form of `CheckoutRancherLicense` (no field writes on the receiver). -/
def ClientState.checkoutRancherLicenseM (c : ClientState) (l : GrantedLicense)
    (entitlementAmt : Int) (freshToken : String) :
    ((Option CheckoutLicenseOutput × Option String) × List CheckoutLicenseInput) × ClientState :=
  (checkoutRancherLicense c.lm.checkoutLicense l entitlementAmt freshToken, c)

/-- Method form of `CheckInRancherLicense` (no field writes on the receiver). -/
def ClientState.checkInRancherLicenseM (c : ClientState) (consumptionToken : String) :
    (Option CheckInLicenseOutput × Option String) × ClientState :=
  (checkInRancherLicense c.lm.checkInLicense consumptionToken, c)

/-- Method form of `ExtendRancherLicenseConsumptionToken` (no field writes on the receiver). -/
def ClientState.extendRancherLicenseConsumptionTokenM (c : ClientState) (consumptionToken : String) :
    (Option ExtendLicenseConsumptionOutput × Option String) × ClientState :=
  (extendRancherLicenseConsumptionToken c.lm.extendLicenseConsumption consumptionToken, c)

/-- Method form of `GetNumberOfAvailableEntitlements` (no field writes on the receiver). -/
def ClientState.getNumberOfAvailableEntitlementsM (c : ClientState) (license : GrantedLicense) :
    Option (Int × Option String) × ClientState :=
  (getNumberOfAvailableEntitlements c.lm.getLicenseUsage license, c)

/-- Specification-side reading of a usage record: the parsed consumed
value, taking absent or unparseable values as 0 (hypotheses of the
theorems that use it rule those cases out). -/
def consumedOf (u : EntitlementUsage) : Int :=
  match u.consumedValue with
  | none => 0
  | some s =>
    match goAtoi s with
    | Except.ok v => v
    | Except.error _ => 0

/-- Specification-side total: the sum of the consumed values of every
usage record whose name is the RKE dimension. -/
def consumedTotal (l : List EntitlementUsage) : Int :=
  ((l.filter (fun u => u.name == some entitlementDimension)).map consumedOf).sum

/-- Fixture: checkout oracle that accepts every request. -/
def lmCheckout3 : CheckoutLicenseInput → Except String CheckoutLicenseOutput :=
  fun _ => Except.ok { licenseConsumptionToken := some "consumption-token-3" }

/-- Fixture: issuer holding a key fingerprint. -/
def issuer3 : IssuerDetails := { keyFingerprint := some "aws:111122223333:keyfp" }

/-- Fixture: license carrying an ARN, a SKU and an issuer fingerprint. -/
def license3 : GrantedLicense :=
  { licenseArn := some "arn:aws:license-manager::111122223333:license:l-3"
    productSKU := some rancherProductSKUNonEmea
    issuer := some issuer3
    entitlements := [] }

/-- Fixture: checkout oracle that would fail if it were ever called. -/
def lmCheckout4 : CheckoutLicenseInput → Except String CheckoutLicenseOutput :=
  fun _ => Except.error "should never be called"

/-- Fixture: license missing its ARN and its issuer. -/
def license4NoArn : GrantedLicense :=
  { licenseArn := none, productSKU := none, issuer := none, entitlements := [] }

/-- Fixture: usage records for the available-entitlements example (30 and 20 consumed). -/
def usageRecords5 : LicenseUsage :=
  { entitlementUsages :=
      [{ name := some entitlementDimension, consumedValue := some "30" },
       { name := some entitlementDimension, consumedValue := some "20" }] }

/-- Fixture: usage-report payload wrapping `usageRecords5`. -/
def usageOut5 : GetLicenseUsageOutput := { licenseUsage := some usageRecords5 }

/-- Fixture: usage oracle returning `usageOut5` for every request. -/
def lmUsage5 : GetLicenseUsageInput → Except String GetLicenseUsageOutput :=
  fun _ => Except.ok usageOut5

/-- Fixture: license with a maximum of 100 for the RKE dimension. -/
def license5 : GrantedLicense :=
  { licenseArn := some "arn:aws:license-manager::111122223333:license:l-5"
    productSKU := none
    issuer := none
    entitlements := [{ name := some entitlementDimension, maxCount := some 100 }] }

/-- Fixture: usage record whose consumed value is not an integer string. -/
def usageRecords6 : LicenseUsage :=
  { entitlementUsages :=
      [{ name := some entitlementDimension, consumedValue := some "not-a-number" }] }

/-- Fixture: usage-report payload wrapping `usageRecords6`. -/
def usageOut6 : GetLicenseUsageOutput := { licenseUsage := some usageRecords6 }

/-- Fixture: usage oracle returning `usageOut6` for every request. -/
def lmUsage6 : GetLicenseUsageInput → Except String GetLicenseUsageOutput :=
  fun _ => Except.ok usageOut6

/-- Fixture: license with a maximum of 10 for the RKE dimension. -/
def license6 : GrantedLicense :=
  { licenseArn := some "arn:aws:license-manager::111122223333:license:l-6"
    productSKU := none
    issuer := none
    entitlements := [{ name := some entitlementDimension, maxCount := some 10 }] }

/-- Fixture: well-formed usage oracle used to reach the entitlement scan. -/
def lmUsage8 : GetLicenseUsageInput → Except String GetLicenseUsageOutput :=
  fun _ => Except.ok
    { licenseUsage := some
        { entitlementUsages :=
            [{ name := some entitlementDimension, consumedValue := some "1" }] } }

/-- Fixture: license whose entitlement entry has an absent name field. -/
def license8NoName : GrantedLicense :=
  { licenseArn := some "arn:aws:license-manager::111122223333:license:l-8"
    productSKU := none
    issuer := none
    entitlements := [{ name := none, maxCount := some 5 }] }

/-- Fixture: usage oracle whose usage record has an absent name field. -/
def lmUsage8b : GetLicenseUsageInput → Except String GetLicenseUsageOutput :=
  fun _ => Except.ok
    { licenseUsage := some
        { entitlementUsages := [{ name := none, consumedValue := some "1" }] } }

/-- Fixture: license with a well-formed RKE entitlement entry. -/
def license8Dim : GrantedLicense :=
  { licenseArn := some "arn:aws:license-manager::111122223333:license:l-8b"
    productSKU := none
    issuer := none
    entitlements := [{ name := some entitlementDimension, maxCount := some 5 }] }

/-- Fixture: STS oracle resolving a twelve-digit account number. -/
def stsOracle9 : Unit → Except String GetCallerIdentityOutput :=
  fun _ => Except.ok { account := some "123456789012" }

/-- Fixture: license-manager oracle whose calls all fail. -/
def lmStub : LMOracle :=
  { listReceivedLicenses := fun _ => Except.error "stub"
    checkoutLicense := fun _ => Except.error "stub"
    checkInLicense := fun _ => Except.error "stub"
    extendLicenseConsumption := fun _ => Except.error "stub"
    getLicenseUsage := fun _ => Except.error "stub" }

/-- Fixture: configuration load result used to construct a client. -/
def loadConfig9 : Except String AWSConfig := Except.ok { region := "us-east-1" }

/-- Fixture: STS factory ignoring the configuration. -/
def stsFactory9 : AWSConfig → Unit → Except String GetCallerIdentityOutput :=
  fun _ => stsOracle9

/-- Fixture: license-manager factory ignoring the configuration. -/
def lmFactory9 : AWSConfig → LMOracle := fun _ => lmStub

/-- Fixture: the client `newClient` builds from the fixtures above. -/
def client9 : ClientState :=
  { acctNum := "123456789012", sts := stsOracle9, lm := lmStub }

/-- Fixture: list oracle returning one license with an absent SKU field. -/
def lmList10 : ListReceivedLicensesInput → Except String ListReceivedLicensesOutput :=
  fun _ => Except.ok
    { licenses :=
        [{ licenseArn := some "arn:aws:license-manager::111122223333:license:l-10"
           productSKU := none
           issuer := none
           entitlements := [] }] }

/-- Helper: `String.data` of a two-part concatenation. -/
lemma string_data_concat (a b : String) : (a ++ b).data = a.data ++ b.data :=
  String.data_append a b

/-- Helper: every run of `getLicenseForProductID` issues exactly the one
filtered, capped list request. -/
lemma getLicenseForProductID_trace
    (lmList : ListReceivedLicensesInput → Except String ListReceivedLicensesOutput)
    (sku : String) :
    (getLicenseForProductID lmList sku).2 = [listInputFor sku] := by
  rcases h : lmList (listInputFor sku) with e | res
  · simp [getLicenseForProductID, h]
  · rcases res with ⟨ls⟩
    rcases ls with _ | ⟨l, rest⟩
    · simp [getLicenseForProductID, h]
    · rcases hsku : l.productSKU with _ | s <;>
        simp [getLicenseForProductID, h, hsku]

/-- Helper: value of `getLicenseForProductID` as a function of the
oracle response. -/
lemma getLicenseForProductID_result
    (lmList : ListReceivedLicensesInput → Except String ListReceivedLicensesOutput)
    (sku : String) :
    (getLicenseForProductID lmList sku).1 =
      (match lmList (listInputFor sku) with
       | Except.error e => (none, some e)
       | Except.ok res =>
         match res.licenses with
         | [] => (none, some ("unable to find license for product id " ++ sku))
         | l :: _ =>
           (some { l with productSKU := some ((l.productSKU).getD sku) }, none)) := by
  rcases h : lmList (listInputFor sku) with e | res
  · simp [getLicenseForProductID, h]
  · rcases res with ⟨ls⟩
    rcases ls with _ | ⟨l, rest⟩
    · simp [getLicenseForProductID, h]
    · rcases hsku : l.productSKU with _ | s
      · simp [getLicenseForProductID, h, hsku]
      · simp only [getLicenseForProductID, h]
        obtain ⟨arn, psku, iss, ents⟩ := l
        simp_all

/-- Helper: value of `getRancherLicense` as a function of the two
single-SKU lookups. -/
lemma getRancherLicense_result
    (lmList : ListReceivedLicensesInput → Except String ListReceivedLicensesOutput) :
    (getRancherLicense lmList).1 =
      (match (getLicenseForProductID lmList rancherProductSKUNonEmea).1 with
       | (lic, none) => (lic, none)
       | (_, some e1) =>
         match (getLicenseForProductID lmList rancherProductSKUEmea).1 with
         | (lic2, none) => (lic2, none)
         | (_, some e2) =>
           (none, some ("unable to get license for non-emea: " ++ e1 ++
             ", unable to get license for emea: " ++ e2))) := by
  rcases h1 : (getLicenseForProductID lmList rancherProductSKUNonEmea).1 with ⟨lic1, e1⟩
  rcases e1 with _ | e1
  · simp [getRancherLicense, h1]
  · rcases h2 : (getLicenseForProductID lmList rancherProductSKUEmea).1 with ⟨lic2, e2⟩
    rcases e2 with _ | e2 <;> simp [getRancherLicense, h1, h2]

/-- Helper: trace of `getRancherLicense` as a function of the first
lookup result. -/
lemma getRancherLicense_trace
    (lmList : ListReceivedLicensesInput → Except String ListReceivedLicensesOutput) :
    (getRancherLicense lmList).2 =
      (match (getLicenseForProductID lmList rancherProductSKUNonEmea).1.2 with
       | none => [listInputFor rancherProductSKUNonEmea]
       | some _ => [listInputFor rancherProductSKUNonEmea,
           listInputFor rancherProductSKUEmea]) := by
  rcases h1 : (getLicenseForProductID lmList rancherProductSKUNonEmea).1 with ⟨lic1, e1⟩
  rcases e1 with _ | e1
  · simp [getRancherLicense, h1, getLicenseForProductID_trace]
  · rcases h2 : (getLicenseForProductID lmList rancherProductSKUEmea).1 with ⟨lic2, e2⟩
    rcases e2 with _ | e2 <;>
      simp [getRancherLicense, h1, h2, getLicenseForProductID_trace]

/-- Helper: with every record name present and every matching consumed
value parseable, the usage loop returns the sum over ALL matching
records. -/
lemma sumUsageLoop_eq_consumedTotal (l : List EntitlementUsage)
    (hnames : ∀ u ∈ l, (u.name).isSome = true)
    (hparse : ∀ u ∈ l, u.name = some entitlementDimension →
      ∃ s v, u.consumedValue = some s ∧ goAtoi s = Except.ok v) :
    sumUsageLoop l = some (Except.ok (consumedTotal l)) := by
  induction l with
  | nil => simp [sumUsageLoop, consumedTotal]
  | cons u rest ih =>
    have hu : (u.name).isSome = true := hnames u (by simp)
    rcases hn : u.name with _ | n
    · rw [hn] at hu; simp at hu
    · have hrest := ih (fun x hx => hnames x (by simp [hx]))
        (fun x hx hm => hparse x (by simp [hx]) hm)
      by_cases hdim : n = entitlementDimension
      · subst hdim
        obtain ⟨s, v, hs, hv⟩ := hparse u (by simp) hn
        simp [sumUsageLoop, hn, hs, hv, hrest, consumedTotal, consumedOf, Except.map]
      · simp [sumUsageLoop, hn, hdim, hrest, consumedTotal]

/-- Helper: with record names and matching consumed values present, one
unparseable matching consumed value makes the usage loop abort with that
parse error. -/
lemma sumUsageLoop_error_of_bad (l : List EntitlementUsage)
    (hnames : ∀ u ∈ l, (u.name).isSome = true)
    (hcons : ∀ u ∈ l, u.name = some entitlementDimension → (u.consumedValue).isSome = true)
    (hbad : ∃ u ∈ l, u.name = some entitlementDimension ∧
      ∃ s, u.consumedValue = some s ∧ ∃ e, goAtoi s = Except.error e) :
    ∃ e, sumUsageLoop l = some (Except.error e) := by
  induction l with
  | nil => simp at hbad
  | cons u rest ih =>
    have hu : (u.name).isSome = true := hnames u (by simp)
    rcases hn : u.name with _ | n
    · rw [hn] at hu; simp at hu
    · by_cases hdim : n = entitlementDimension
      · subst hdim
        have hc : (u.consumedValue).isSome = true := hcons u (by simp) hn
        rcases hs : u.consumedValue with _ | s
        · rw [hs] at hc; simp at hc
        · rcases hga : goAtoi s with e | v
          · exact ⟨e, by simp [sumUsageLoop, hn, hs, hga]⟩
          · obtain ⟨w, hw, hwdim, s2, hs2, e2, he2⟩ := hbad
            rcases List.mem_cons.mp hw with hw | hw
            · subst hw
              rw [hs] at hs2
              injection hs2 with hs2
              subst hs2
              rw [hga] at he2
              cases he2
            · obtain ⟨e, he⟩ := ih (fun x hx => hnames x (by simp [hx]))
                (fun x hx hm => hcons x (by simp [hx]) hm)
                ⟨w, hw, hwdim, s2, hs2, e2, he2⟩
              exact ⟨e, by simp [sumUsageLoop, hn, hs, hga, he, Except.map]⟩
      · obtain ⟨w, hw, hwdim, s2, hs2, e2, he2⟩ := hbad
        rcases List.mem_cons.mp hw with hw | hw
        · subst hw
          rw [hn] at hwdim
          injection hwdim with hwdim
          exact absurd hwdim hdim
        · obtain ⟨e, he⟩ := ih (fun x hx => hnames x (by simp [hx]))
            (fun x hx hm => hcons x (by simp [hx]) hm)
            ⟨w, hw, hwdim, s2, hs2, e2, he2⟩
          exact ⟨e, by simp [sumUsageLoop, hn, hdim, he]⟩

/-- Helper: when every entitlement entry has a name and none of them is
the RKE dimension, the scan reaches the not-found error (the ARN being
present, the error message is built rather than panicking). -/
lemma findMaxRKE_error_of_absent (arn : String) (l : List Entitlement)
    (hnames : ∀ e ∈ l, (e.name).isSome = true)
    (habs : ∀ e ∈ l, e.name ≠ some entitlementDimension) :
    ∃ msg, findMaxRKE (some arn) l = some (Except.error msg) := by
  induction l with
  | nil => exact ⟨_, rfl⟩
  | cons e rest ih =>
    have hu : (e.name).isSome = true := hnames e (by simp)
    rcases hn : e.name with _ | n
    · rw [hn] at hu; simp at hu
    · have hdim : n ≠ entitlementDimension := by
        intro hcontra
        subst hcontra
        exact habs e (by simp) hn
      obtain ⟨msg, hmsg⟩ := ih (fun x hx => hnames x (by simp [hx]))
        (fun x hx => habs x (by simp [hx]))
      exact ⟨msg, by simp [findMaxRKE, hn, hdim, hmsg]⟩

/-- Claim C2: the single-SKU lookup issues exactly one list request whose
only filter is the field `ProductSKU` with exactly the queried SKU as its
only value and whose max-results cap is 1; an empty result list yields a
not-found error naming the queried SKU; otherwise the first listed
license is returned, with its SKU field back-filled with the queried SKU
when the vendor omitted it. -/
theorem getLicenseForProductID_request_and_result
    (lmList : ListReceivedLicensesInput → Except String ListReceivedLicensesOutput)
    (sku : String) :
    ∃ i : ListReceivedLicensesInput,
      (getLicenseForProductID lmList sku).2 = [i] ∧
      i.filters = [{ name := some productSKUField, values := [sku] }] ∧
      i.maxResults = some 1 ∧
      (match lmList i with
       | Except.error e => (getLicenseForProductID lmList sku).1 = (none, some e)
       | Except.ok res =>
         match res.licenses with
         | [] => ∃ msg, (getLicenseForProductID lmList sku).1 = (none, some msg) ∧
             sku.data <:+: msg.data
         | l :: _ =>
           (getLicenseForProductID lmList sku).1 =
             (some { l with productSKU := some ((l.productSKU).getD sku) }, none)) := by
  refine ⟨listInputFor sku, getLicenseForProductID_trace lmList sku, rfl, rfl, ?_⟩
  rcases h : lmList (listInputFor sku) with e | res
  · simp [getLicenseForProductID_result, h]
  · rcases hl : res.licenses with _ | ⟨l, rest⟩
    · simp only [getLicenseForProductID_result, h, hl]
      refine ⟨"unable to find license for product id " ++ sku, rfl, ?_⟩
      exact ⟨("unable to find license for product id ").data, [],
        by simp [string_data_concat]⟩
    · simp [getLicenseForProductID_result, h, hl]

/-- Claim C1: `GetRancherLicense` first attempts the lookup with the
non-EMEA SKU; exactly when that lookup errors it attempts the EMEA SKU
(trace length 2 instead of 1); a successful second lookup is returned,
and when both fail the single combined error contains both underlying
failure messages. -/
theorem getRancherLicense_dual_sku_fallback
    (lmList : ListReceivedLicensesInput → Except String ListReceivedLicensesOutput) :
    (∃ i1, (getRancherLicense lmList).2.head? = some i1 ∧
      i1.filters = [{ name := some productSKUField, values := [rancherProductSKUNonEmea] }] ∧
      i1.maxResults = some 1) ∧
    (match (getLicenseForProductID lmList rancherProductSKUNonEmea).1 with
     | (lic, none) =>
       (getRancherLicense lmList).1 = (lic, none) ∧
       (getRancherLicense lmList).2.length = 1
     | (_, some e1) =>
       (getRancherLicense lmList).2.length = 2 ∧
       (∃ i2, (getRancherLicense lmList).2.get? 1 = some i2 ∧
         i2.filters = [{ name := some productSKUField, values := [rancherProductSKUEmea] }] ∧
         i2.maxResults = some 1) ∧
       (match (getLicenseForProductID lmList rancherProductSKUEmea).1 with
        | (lic2, none) => (getRancherLicense lmList).1 = (lic2, none)
        | (_, some e2) =>
          ∃ ec, (getRancherLicense lmList).1 = (none, some ec) ∧
            e1.data <:+: ec.data ∧ e2.data <:+: ec.data)) := by
  constructor
  · refine ⟨listInputFor rancherProductSKUNonEmea, ?_, rfl, rfl⟩
    rw [getRancherLicense_trace]
    rcases (getLicenseForProductID lmList rancherProductSKUNonEmea).1.2 with _ | e <;> rfl
  · rcases h1 : (getLicenseForProductID lmList rancherProductSKUNonEmea).1 with ⟨lic1, e1⟩
    rcases e1 with _ | e1
    · constructor
      · rw [getRancherLicense_result, h1]
      · simp [getRancherLicense_trace, h1]
    · refine ⟨by simp [getRancherLicense_trace, h1], ?_, ?_⟩
      · exact ⟨listInputFor rancherProductSKUEmea,
          by simp [getRancherLicense_trace, h1], rfl, rfl⟩
      · rcases h2 : (getLicenseForProductID lmList rancherProductSKUEmea).1 with ⟨lic2, e2⟩
        rcases e2 with _ | e2
        · rw [getRancherLicense_result, h1, h2]
        · refine ⟨"unable to get license for non-emea: " ++ e1 ++
            ", unable to get license for emea: " ++ e2,
            by rw [getRancherLicense_result, h1, h2], ?_, ?_⟩
          · exact ⟨("unable to get license for non-emea: ").data,
              (", unable to get license for emea: " ++ e2).data,
              by simp [string_data_concat]⟩
          · exact ⟨("unable to get license for non-emea: " ++ e1 ++
              ", unable to get license for emea: ").data, [],
              by simp [string_data_concat]⟩

/-- Claim C10: whenever `GetRancherLicense` returns without error, the
returned license is present (non-nil) and its SKU field is present: it is
the vendor value of the first listed license under one of the two
regional SKUs, or that queried SKU itself when the vendor omitted it. -/
theorem getRancherLicense_sku_always_present
    (lmList : ListReceivedLicensesInput → Except String ListReceivedLicensesOutput)
    (h : (getRancherLicense lmList).1.2 = none) :
    ∃ l, (getRancherLicense lmList).1.1 = some l ∧ (l.productSKU).isSome = true ∧
      ∃ sku, (sku = rancherProductSKUNonEmea ∨ sku = rancherProductSKUEmea) ∧
        ∃ out, lmList (listInputFor sku) = Except.ok out ∧
          ∃ l0 rest, out.licenses = l0 :: rest ∧
            l.productSKU = some ((l0.productSKU).getD sku) := by
  rcases h1 : lmList (listInputFor rancherProductSKUNonEmea) with e1 | out1
  · rcases h2 : lmList (listInputFor rancherProductSKUEmea) with e2 | out2
    · simp [getRancherLicense_result, getLicenseForProductID_result, h1, h2] at h
    · rcases hl2 : out2.licenses with _ | ⟨l0, rest⟩
      · simp [getRancherLicense_result, getLicenseForProductID_result, h1, h2, hl2] at h
      · refine ⟨{ l0 with productSKU := some ((l0.productSKU).getD rancherProductSKUEmea) }, ?_,
          by simp, rancherProductSKUEmea, Or.inr rfl, out2, h2, l0, rest, hl2, by simp⟩
        simp [getRancherLicense_result, getLicenseForProductID_result, h1, h2, hl2]
  · rcases hl1 : out1.licenses with _ | ⟨l0, rest⟩
    · rcases h2 : lmList (listInputFor rancherProductSKUEmea) with e2 | out2
      · simp [getRancherLicense_result, getLicenseForProductID_result, h1, h2, hl1] at h
      · rcases hl2 : out2.licenses with _ | ⟨l0, rest⟩
        · simp [getRancherLicense_result, getLicenseForProductID_result, h1, h2, hl1, hl2] at h
        · refine ⟨{ l0 with productSKU := some ((l0.productSKU).getD rancherProductSKUEmea) }, ?_,
            by simp, rancherProductSKUEmea, Or.inr rfl, out2, h2, l0, rest, hl2, by simp⟩
          simp [getRancherLicense_result, getLicenseForProductID_result, h1, h2, hl1, hl2]
    · refine ⟨{ l0 with productSKU := some ((l0.productSKU).getD rancherProductSKUNonEmea) }, ?_,
        by simp, rancherProductSKUNonEmea, Or.inl rfl, out1, h1, l0, rest, hl1, by simp⟩
      simp [getRancherLicense_result, getLicenseForProductID_result, h1, hl1]

/-- Helper: with the fingerprint present, the checkout request issued is
exactly the one built from the license, amount and fresh token. -/
lemma checkoutRancherLicense_trace_of_fp
    (lmCheckout : CheckoutLicenseInput → Except String CheckoutLicenseOutput)
    (l : GrantedLicense) (iss : IssuerDetails) (fp : String)
    (amt : Int) (tok : String)
    (hiss : l.issuer = some iss) (hfp : iss.keyFingerprint = some fp) :
    (checkoutRancherLicense lmCheckout l amt tok).2 =
      [{ checkoutType := CheckoutType.provisional
         clientToken := some tok
         productSKU := l.productSKU
         keyFingerprint := some fp
         entitlements := [{ name := some entitlementDimension, unit := entitlementUnit, value := some (toString amt) }] }] := by
  rcases hres : lmCheckout
      { checkoutType := CheckoutType.provisional
        clientToken := some tok
        productSKU := l.productSKU
        keyFingerprint := some fp
        entitlements := [{ name := some entitlementDimension, unit := entitlementUnit, value := some (toString amt) }] } with e | res <;>
    simp [checkoutRancherLicense, hiss, hfp, hres]

/-- Claim C3: for a license with an issuer key fingerprint,
`CheckoutRancherLicense` issues exactly one checkout request, of
provisional type, with a single entitlement entry (`RKE_NODE_SUPP`,
unit `Count`, value the decimal string of the amount), the fingerprint
and SKU taken from the license, and the freshly generated token as the
client token (distinct tokens give distinct request tokens); on success
the vendor result is returned unmodified. -/
theorem checkoutRancherLicense_request_spec
    (lmCheckout : CheckoutLicenseInput → Except String CheckoutLicenseOutput)
    (l : GrantedLicense) (iss : IssuerDetails) (fp : String)
    (entitlementAmt : Int) (freshToken : String)
    (hiss : l.issuer = some iss) (hfp : iss.keyFingerprint = some fp) :
    ∃ i : CheckoutLicenseInput,
      (checkoutRancherLicense lmCheckout l entitlementAmt freshToken).2 = [i] ∧
      i.checkoutType = CheckoutType.provisional ∧
      i.clientToken = some freshToken ∧
      i.productSKU = l.productSKU ∧
      i.keyFingerprint = some fp ∧
      i.entitlements = [{ name := some entitlementDimension, unit := entitlementUnit, value := some (toString entitlementAmt) }] ∧
      (∀ tok2, tok2 ≠ freshToken →
        ∀ i2, (checkoutRancherLicense lmCheckout l entitlementAmt tok2).2 = [i2] →
          i2.clientToken ≠ i.clientToken) ∧
      (match lmCheckout i with
       | Except.ok res =>
         (checkoutRancherLicense lmCheckout l entitlementAmt freshToken).1 = (some res, none)
       | Except.error e =>
         (checkoutRancherLicense lmCheckout l entitlementAmt freshToken).1 = (none, some e)) := by
  refine ⟨{ checkoutType := CheckoutType.provisional
            clientToken := some freshToken
            productSKU := l.productSKU
            keyFingerprint := some fp
            entitlements := [{ name := some entitlementDimension, unit := entitlementUnit, value := some (toString entitlementAmt) }] },
    checkoutRancherLicense_trace_of_fp lmCheckout l iss fp entitlementAmt freshToken hiss hfp,
    rfl, rfl, rfl, rfl, rfl, ?_, ?_⟩
  · intro tok2 hne i2 h2
    rw [checkoutRancherLicense_trace_of_fp lmCheckout l iss fp entitlementAmt tok2 hiss hfp] at h2
    have : i2.clientToken = some tok2 := by
      injection h2 with h2
      rw [← h2]
    rw [this]
    intro hcontra
    injection hcontra with hcontra
    exact hne hcontra
  · rcases hres : lmCheckout
        { checkoutType := CheckoutType.provisional
          clientToken := some freshToken
          productSKU := l.productSKU
          keyFingerprint := some fp
          entitlements := [{ name := some entitlementDimension, unit := entitlementUnit, value := some (toString entitlementAmt) }] } with e | res <;>
      simp [checkoutRancherLicense, hiss, hfp, hres]

/-- Claim C4: with the issuer or the fingerprint absent,
`CheckoutRancherLicense` fails without issuing any request, and the error
distinguishes the missing-ARN case from the ARN-present case, naming the
ARN in the latter. -/
theorem checkoutRancherLicense_missing_fingerprint
    (lmCheckout : CheckoutLicenseInput → Except String CheckoutLicenseOutput)
    (l : GrantedLicense) (amt : Int) (tok : String)
    (h : l.issuer = none ∨ ∃ iss, l.issuer = some iss ∧ iss.keyFingerprint = none) :
    (checkoutRancherLicense lmCheckout l amt tok).2 = [] ∧
    (match l.licenseArn with
     | none => (checkoutRancherLicense lmCheckout l amt tok).1 =
         (none, some "license is missing arn and KeyFingerprint/Issuer")
     | some arn =>
       ∃ msg, (checkoutRancherLicense lmCheckout l amt tok).1 = (none, some msg) ∧
         arn.data <:+: msg.data ∧
         msg = "license " ++ arn ++ " must have a KeyFingerprint for checkout") := by
  rcases harn : l.licenseArn with _ | arn
  · rcases h with hiss | ⟨iss, hiss, hfp⟩
    · exact ⟨by simp [checkoutRancherLicense, hiss, harn],
        by simp [checkoutRancherLicense, hiss, harn]⟩
    · exact ⟨by simp [checkoutRancherLicense, hiss, hfp, harn],
        by simp [checkoutRancherLicense, hiss, hfp, harn]⟩
  · rcases h with hiss | ⟨iss, hiss, hfp⟩
    · refine ⟨by simp [checkoutRancherLicense, hiss, harn],
        "license " ++ arn ++ " must have a KeyFingerprint for checkout",
        by simp [checkoutRancherLicense, hiss, harn], ?_, rfl⟩
      exact ⟨("license ").data, (" must have a KeyFingerprint for checkout").data,
        by simp [string_data_concat]⟩
    · refine ⟨by simp [checkoutRancherLicense, hiss, hfp, harn],
        "license " ++ arn ++ " must have a KeyFingerprint for checkout",
        by simp [checkoutRancherLicense, hiss, hfp, harn], ?_, rfl⟩
      exact ⟨("license ").data, (" must have a KeyFingerprint for checkout").data,
        by simp [string_data_concat]⟩

/-- Claim C5: with the RKE entitlement present with maximum `maxE` and
all usage records well formed and parseable, the available count is
`maxE` minus the sum over ALL records whose name is the RKE dimension,
returned without error (a negative value is returned as-is). -/
theorem getNumberOfAvailableEntitlements_subtracts_consumed
    (lmUsage : GetLicenseUsageInput → Except String GetLicenseUsageOutput)
    (license : GrantedLicense) (out : GetLicenseUsageOutput) (lu : LicenseUsage) (maxE : Int)
    (husage : lmUsage { licenseArn := license.licenseArn } = Except.ok out)
    (hlu : out.licenseUsage = some lu)
    (hmax : getMaxRKEEntitlements license = some (Except.ok maxE))
    (hnames : ∀ u ∈ lu.entitlementUsages, (u.name).isSome = true)
    (hparse : ∀ u ∈ lu.entitlementUsages, u.name = some entitlementDimension →
      ∃ s v, u.consumedValue = some s ∧ goAtoi s = Except.ok v) :
    getNumberOfAvailableEntitlements lmUsage license =
      some (maxE - consumedTotal lu.entitlementUsages, none) := by
  simp [getNumberOfAvailableEntitlements, husage, hmax, hlu,
    sumUsageLoop_eq_consumedTotal lu.entitlementUsages hnames hparse]

/-- Claim C6: the available-entitlement count is 0 with a non-nil error
when the usage call fails, when the RKE dimension is absent from the
license entitlement list, or when the consumed value of a matching
usage record does not parse (no partial sum is returned). -/
theorem getNumberOfAvailableEntitlements_error_cases
    (lmUsage : GetLicenseUsageInput → Except String GetLicenseUsageOutput)
    (license : GrantedLicense)
    (h : (∃ e, lmUsage { licenseArn := license.licenseArn } = Except.error e) ∨
      ((∃ out, lmUsage { licenseArn := license.licenseArn } = Except.ok out) ∧
        (∃ arn, license.licenseArn = some arn) ∧
        (∀ ent ∈ license.entitlements, (ent.name).isSome = true) ∧
        (∀ ent ∈ license.entitlements, ent.name ≠ some entitlementDimension)) ∨
      (∃ out lu maxE, lmUsage { licenseArn := license.licenseArn } = Except.ok out ∧
        out.licenseUsage = some lu ∧
        getMaxRKEEntitlements license = some (Except.ok maxE) ∧
        (∀ u ∈ lu.entitlementUsages, (u.name).isSome = true) ∧
        (∀ u ∈ lu.entitlementUsages, u.name = some entitlementDimension →
          (u.consumedValue).isSome = true) ∧
        (∃ u ∈ lu.entitlementUsages, u.name = some entitlementDimension ∧
          ∃ s, u.consumedValue = some s ∧ ∃ e, goAtoi s = Except.error e))) :
    ∃ e, getNumberOfAvailableEntitlements lmUsage license = some (0, some e) := by
  rcases h with ⟨e, he⟩ |
    ⟨⟨out, hout⟩, ⟨arn, harn⟩, hnames, habs⟩ |
    ⟨out, lu, maxE, hout, hlu, hmax, hnames, hcons, hbad⟩
  · exact ⟨e, by simp [getNumberOfAvailableEntitlements, he]⟩
  · obtain ⟨msg, hmsg⟩ := findMaxRKE_error_of_absent arn license.entitlements hnames habs
    have hmax : getMaxRKEEntitlements license = some (Except.error msg) := by
      rw [getMaxRKEEntitlements, harn]
      exact hmsg
    exact ⟨msg, by simp [getNumberOfAvailableEntitlements, hout, hmax]⟩
  · obtain ⟨e, he⟩ := sumUsageLoop_error_of_bad lu.entitlementUsages hnames hcons hbad
    exact ⟨e, by simp [getNumberOfAvailableEntitlements, hout, hmax, hlu, he]⟩

/-- Claim C7: client construction fails exactly when configuration
loading fails, the identity lookup fails, or the account field is absent
or empty; on success the reported account number equals the account
field of the identity response exactly. -/
theorem newClient_construction_spec
    (loadDefaultConfig : Except String AWSConfig)
    (stsNewFromConfig : AWSConfig → (Unit → Except String GetCallerIdentityOutput))
    (lmNewFromConfig : AWSConfig → LMOracle) :
    ((newClient loadDefaultConfig stsNewFromConfig lmNewFromConfig).1 = none ↔
      ((∃ e, loadDefaultConfig = Except.error e) ∨
       (∃ cfg, loadDefaultConfig = Except.ok cfg ∧
         ((∃ e, stsNewFromConfig cfg () = Except.error e) ∨
          (∃ out, stsNewFromConfig cfg () = Except.ok out ∧
            (out.account).getD "" = ""))))) ∧
    (∀ c, (newClient loadDefaultConfig stsNewFromConfig lmNewFromConfig).1 = some c →
      ∃ cfg out a, loadDefaultConfig = Except.ok cfg ∧
        stsNewFromConfig cfg () = Except.ok out ∧ out.account = some a ∧
        a ≠ "" ∧ ClientState.accountNumber c = a) := by
  rcases hcfg : loadDefaultConfig with e | cfg
  · constructor
    · simp [newClient]
    · intro c hc
      simp [newClient] at hc
  · rcases hsts : stsNewFromConfig cfg () with e | out
    · constructor
      · simp [newClient, getAccountNumber, hsts]
      · intro c hc
        simp [newClient, getAccountNumber, hsts] at hc
    · rcases hacct : out.account with _ | a
      · constructor
        · simp [newClient, getAccountNumber, hsts, hacct]
        · intro c hc
          simp [newClient, getAccountNumber, hsts, hacct] at hc
      · by_cases hlen : a.length = 0
        · have ha : a = "" := by
            obtain ⟨d⟩ := a
            simp [String.length] at hlen
            simp [hlen]
          subst ha
          constructor
          · simp [newClient, getAccountNumber, hsts, hacct]
          · intro c hc
            simp [newClient, getAccountNumber, hsts, hacct] at hc
        · have ha : a ≠ "" := by
            intro hcontra
            subst hcontra
            exact hlen rfl
          constructor
          · constructor
            · intro hnone
              simp [newClient, getAccountNumber, hsts, hacct, hlen] at hnone
            · intro hcases
              rcases hcases with ⟨e, habs⟩ | ⟨cfg2, hcfg2, hrest⟩
              · cases habs
              · injection hcfg2 with hcfg2
                subst hcfg2
                rcases hrest with ⟨e, habs⟩ | ⟨out2, hout2, hempty⟩
                · rw [hsts] at habs
                  cases habs
                · rw [hsts] at hout2
                  injection hout2 with hout2
                  subst hout2
                  rw [hacct] at hempty
                  simp at hempty
                  exact absurd hempty ha
          · intro c hc
            refine ⟨cfg, out, a, rfl, hsts, hacct, ha, ?_⟩
            simp [newClient, getAccountNumber, hsts, hacct, hlen] at hc
            rw [← hc]
            rfl

/-- Claim C9: every operation other than construction returns the client
state unchanged, so the stored account number always equals the value
set at construction and repeated `AccountNumber` calls agree. -/
theorem client_operations_preserve_state
    (loadDefaultConfig : Except String AWSConfig)
    (stsNewFromConfig : AWSConfig → (Unit → Except String GetCallerIdentityOutput))
    (lmNewFromConfig : AWSConfig → LMOracle)
    (c : ClientState)
    (_hc : (newClient loadDefaultConfig stsNewFromConfig lmNewFromConfig).1 = some c)
    (license : GrantedLicense) (amt : Int) (t1 t2 t3 : String) :
    (ClientState.getRancherLicenseM c).2 = c ∧
    (ClientState.checkoutRancherLicenseM c license amt t1).2 = c ∧
    (ClientState.checkInRancherLicenseM c t2).2 = c ∧
    (ClientState.extendRancherLicenseConsumptionTokenM c t3).2 = c ∧
    (ClientState.getNumberOfAvailableEntitlementsM c license).2 = c ∧
    ClientState.accountNumber c = c.acctNum ∧
    ClientState.accountNumber (ClientState.getRancherLicenseM c).2 = ClientState.accountNumber c ∧
    ClientState.accountNumber (ClientState.checkoutRancherLicenseM c license amt t1).2 = ClientState.accountNumber c ∧
    ClientState.accountNumber (ClientState.checkInRancherLicenseM c t2).2 = ClientState.accountNumber c ∧
    ClientState.accountNumber (ClientState.extendRancherLicenseConsumptionTokenM c t3).2 = ClientState.accountNumber c ∧
    ClientState.accountNumber (ClientState.getNumberOfAvailableEntitlementsM c license).2 = ClientState.accountNumber c :=
  ⟨rfl, rfl, rfl, rfl, rfl, rfl, rfl, rfl, rfl, rfl, rfl⟩

/-- Claim C8 counterexample: `GetNumberOfAvailableEntitlements` on a
license whose entitlement entry has an absent name field dereferences the
absent optional field (result `none` models the nil-pointer panic)
instead of returning an error, refuting the claim that every nullable
vendor field is presence-checked before each use. -/
theorem entitlement_name_deref_panics :
    getNumberOfAvailableEntitlements lmUsage8 license8NoName = none := rfl

/-- Claim C8 (amended): the license SKU, ARN and issuer fingerprint are
presence-checked (checkout refuses a fingerprint-less license with an
error and no request), but entitlement names and usage record fields are
dereferenced without presence checks, so the usage computation panics
(`none`) rather than returning an error when they are absent. -/
theorem presence_checks_amended
    (lmCheckout : CheckoutLicenseInput → Except String CheckoutLicenseOutput)
    (l : GrantedLicense) (amt : Int) (tok : String)
    (h : l.issuer = none ∨ ∃ iss, l.issuer = some iss ∧ iss.keyFingerprint = none) :
    (∃ msg, (checkoutRancherLicense lmCheckout l amt tok).1 = (none, some msg) ∧
      (checkoutRancherLicense lmCheckout l amt tok).2 = []) ∧
    getNumberOfAvailableEntitlements lmUsage8 license8NoName = none ∧
    getNumberOfAvailableEntitlements lmUsage8b license8Dim = none := by
  refine ⟨?_, rfl, rfl⟩
  rcases harn : l.licenseArn with _ | arn
  · rcases h with hiss | ⟨iss, hiss, hfp⟩
    · exact ⟨"license is missing arn and KeyFingerprint/Issuer",
        by simp [checkoutRancherLicense, hiss, harn],
        by simp [checkoutRancherLicense, hiss, harn]⟩
    · exact ⟨"license is missing arn and KeyFingerprint/Issuer",
        by simp [checkoutRancherLicense, hiss, hfp, harn],
        by simp [checkoutRancherLicense, hiss, hfp, harn]⟩
  · rcases h with hiss | ⟨iss, hiss, hfp⟩
    · exact ⟨"license " ++ arn ++ " must have a KeyFingerprint for checkout",
        by simp [checkoutRancherLicense, hiss, harn],
        by simp [checkoutRancherLicense, hiss, harn]⟩
    · exact ⟨"license " ++ arn ++ " must have a KeyFingerprint for checkout",
        by simp [checkoutRancherLicense, hiss, hfp, harn],
        by simp [checkoutRancherLicense, hiss, hfp, harn]⟩

/-- Witness for claim C3 at a concrete oracle, license, amount and token. -/
theorem checkoutRancherLicense_request_spec_witness :
    ∃ i : CheckoutLicenseInput,
      (checkoutRancherLicense lmCheckout3 license3 5 "uuid-fresh-1").2 = [i] ∧
      i.checkoutType = CheckoutType.provisional ∧
      i.clientToken = some "uuid-fresh-1" ∧
      i.productSKU = license3.productSKU ∧
      i.keyFingerprint = some "aws:111122223333:keyfp" ∧
      i.entitlements = [{ name := some entitlementDimension, unit := entitlementUnit, value := some (toString (5 : Int)) }] ∧
      (∀ tok2, tok2 ≠ "uuid-fresh-1" →
        ∀ i2, (checkoutRancherLicense lmCheckout3 license3 5 tok2).2 = [i2] →
          i2.clientToken ≠ i.clientToken) ∧
      (match lmCheckout3 i with
       | Except.ok res =>
         (checkoutRancherLicense lmCheckout3 license3 5 "uuid-fresh-1").1 = (some res, none)
       | Except.error e =>
         (checkoutRancherLicense lmCheckout3 license3 5 "uuid-fresh-1").1 = (none, some e)) :=
  checkoutRancherLicense_request_spec lmCheckout3 license3 issuer3
    "aws:111122223333:keyfp" 5 "uuid-fresh-1" rfl rfl

/-- Witness for claim C4 at a license missing both ARN and issuer. -/
theorem checkoutRancherLicense_missing_fingerprint_witness :
    (checkoutRancherLicense lmCheckout4 license4NoArn 1 "uuid-fresh-4").2 = [] ∧
    (match license4NoArn.licenseArn with
     | none => (checkoutRancherLicense lmCheckout4 license4NoArn 1 "uuid-fresh-4").1 =
         (none, some "license is missing arn and KeyFingerprint/Issuer")
     | some arn =>
       ∃ msg, (checkoutRancherLicense lmCheckout4 license4NoArn 1 "uuid-fresh-4").1 = (none, some msg) ∧
         arn.data <:+: msg.data ∧
         msg = "license " ++ arn ++ " must have a KeyFingerprint for checkout") :=
  checkoutRancherLicense_missing_fingerprint lmCheckout4 license4NoArn 1 "uuid-fresh-4" (Or.inl rfl)

/-- Witness for claim C5: maximum 100, consumed 30 and 20, so 50 remain. -/
theorem getNumberOfAvailableEntitlements_subtracts_consumed_witness :
    getNumberOfAvailableEntitlements lmUsage5 license5 = some (50, none) := by
  have hnames : ∀ u ∈ usageRecords5.entitlementUsages, (u.name).isSome = true := by decide
  have hparse : ∀ u ∈ usageRecords5.entitlementUsages, u.name = some entitlementDimension →
      ∃ s v, u.consumedValue = some s ∧ goAtoi s = Except.ok v := by
    intro u hu hm
    simp [usageRecords5] at hu
    rcases hu with rfl | rfl
    · exact ⟨"30", 30, rfl, rfl⟩
    · exact ⟨"20", 20, rfl, rfl⟩
  have h := getNumberOfAvailableEntitlements_subtracts_consumed lmUsage5 license5 usageOut5
    usageRecords5 100 rfl rfl rfl hnames hparse
  rw [h]
  decide

/-- Witness for claim C6 at an unparseable consumed value. -/
theorem getNumberOfAvailableEntitlements_error_cases_witness :
    ∃ e, getNumberOfAvailableEntitlements lmUsage6 license6 = some (0, some e) :=
  getNumberOfAvailableEntitlements_error_cases lmUsage6 license6
    (Or.inr (Or.inr ⟨usageOut6, usageRecords6, 10, rfl, rfl, rfl, by decide, by decide,
      ⟨{ name := some entitlementDimension, consumedValue := some "not-a-number" },
        by simp [usageRecords6], rfl, "not-a-number", rfl,
        "strconv.Atoi: parsing not-a-number: invalid syntax", rfl⟩⟩))

/-- Witness for claim C9 at a concretely constructed client. -/
theorem client_operations_preserve_state_witness :
    (ClientState.getRancherLicenseM client9).2 = client9 ∧
    (ClientState.checkoutRancherLicenseM client9 license3 1 "token-a").2 = client9 ∧
    (ClientState.checkInRancherLicenseM client9 "token-b").2 = client9 ∧
    (ClientState.extendRancherLicenseConsumptionTokenM client9 "token-c").2 = client9 ∧
    (ClientState.getNumberOfAvailableEntitlementsM client9 license3).2 = client9 ∧
    ClientState.accountNumber client9 = client9.acctNum ∧
    ClientState.accountNumber (ClientState.getRancherLicenseM client9).2 = ClientState.accountNumber client9 ∧
    ClientState.accountNumber (ClientState.checkoutRancherLicenseM client9 license3 1 "token-a").2 = ClientState.accountNumber client9 ∧
    ClientState.accountNumber (ClientState.checkInRancherLicenseM client9 "token-b").2 = ClientState.accountNumber client9 ∧
    ClientState.accountNumber (ClientState.extendRancherLicenseConsumptionTokenM client9 "token-c").2 = ClientState.accountNumber client9 ∧
    ClientState.accountNumber (ClientState.getNumberOfAvailableEntitlementsM client9 license3).2 = ClientState.accountNumber client9 :=
  client_operations_preserve_state loadConfig9 stsFactory9 lmFactory9 client9 rfl
    license3 1 "token-a" "token-b" "token-c"

/-- Witness for claim C10 at an oracle whose license omits the SKU field. -/
theorem getRancherLicense_sku_always_present_witness :
    ∃ l, (getRancherLicense lmList10).1.1 = some l ∧ (l.productSKU).isSome = true ∧
      ∃ sku, (sku = rancherProductSKUNonEmea ∨ sku = rancherProductSKUEmea) ∧
        ∃ out, lmList10 (listInputFor sku) = Except.ok out ∧
          ∃ l0 rest, out.licenses = l0 :: rest ∧
            l.productSKU = some ((l0.productSKU).getD sku) :=
  getRancherLicense_sku_always_present lmList10 rfl

/-- Witness for the amended claim C8 at a concrete fingerprint-less license. -/
theorem presence_checks_amended_witness :
    (∃ msg, (checkoutRancherLicense lmCheckout4 license4NoArn 2 "uuid-fresh-8").1 = (none, some msg) ∧
      (checkoutRancherLicense lmCheckout4 license4NoArn 2 "uuid-fresh-8").2 = []) ∧
    getNumberOfAvailableEntitlements lmUsage8 license8NoName = none ∧
    getNumberOfAvailableEntitlements lmUsage8b license8Dim = none :=
  presence_checks_amended lmCheckout4 license4NoArn 2 "uuid-fresh-8" (Or.inl rfl)
